import Mathlib

/-!
Verification of the nomino_desktop PDF date-replacer.

The repository has two entry points sharing one core procedure:
* `src/program_10/main.py` — GUI batch variant: `PDFDateChangerThread.run`
  walks a folder and calls `process_pdf` on every matching file;
* `src/src-tauri/pdf_date_replacer.py` — CLI single-file variant:
  `replace_date_in_pdf` plus a `main` wrapper handling exit codes and
  optional deletion of the original.

The embedding below models the PyMuPDF (`fitz`) page as an abstract record
(extracted text plus a `search_for` oracle) and each procedure as a pure
function returning a trace of the page-editing operations and filesystem
effects the Python code performs.  Machine reals (PDF coordinates) are
modelled as `Int`: the claims only involve exact corner arithmetic.
-/

namespace NominoDesktop

/-! ### The date regex `(\d{2}[./]\d{2}[./]\d{4})` and `re.finditer`

`\d` is modelled as an ASCII digit and `re.finditer`'s left-to-right
non-overlapping scan is implemented structurally: after emitting a match
(always of length 10) the scanner skips the remaining 9 characters of the
match before trying again, exactly like the regex engine resuming at the
match's end. -/

def isDateSep (c : Char) : Bool := c == '.' || c == '/'

def dateMatchAt : List Char → Option String
  | a :: b :: s1 :: c :: d :: s2 :: e :: f :: g :: k :: _ =>
    if a.isDigit && b.isDigit && isDateSep s1 && c.isDigit && d.isDigit &&
        isDateSep s2 && e.isDigit && f.isDigit && g.isDigit && k.isDigit then
      some (String.mk [a, b, s1, c, d, s2, e, f, g, k])
    else none
  | _ => none

def finditerGo : List Char → Nat → Nat → List (Nat × String)
  | [], _, _ => []
  | _ :: rest, pos, Nat.succ k => finditerGo rest (pos + 1) k
  | c :: rest, pos, 0 =>
    match dateMatchAt (c :: rest) with
    | some m => (pos, m) :: finditerGo rest (pos + 1) 9
    | none => finditerGo rest (pos + 1) 0

/-- `list(re.finditer(r'(\d{2}[./]\d{2}[./]\d{4})', text))` as a list of
(start offset, matched substring) pairs, in scan order. -/
def pyFinditer (text : String) : List (Nat × String) :=
  finditerGo text.toList 0 0

/-! ### Geometry and page model (the `fitz` surface used by the code) -/

structure Point where
  x : Int
  y : Int
deriving DecidableEq

structure Rect where
  x0 : Int
  y0 : Int
  x1 : Int
  y1 : Int
deriving DecidableEq

/-- `fitz.Rect.tl`, the top-left corner. -/
def Rect.tl (r : Rect) : Point := ⟨r.x0, r.y0⟩

/-- `fitz.Rect.br`, the bottom-right corner. -/
def Rect.br (r : Rect) : Point := ⟨r.x1, r.y1⟩

/-- The last page of an opened document: its extracted text
(`page.get_text()`) and the bounding boxes `page.search_for(s)` returns
for a string `s`. -/
structure Page where
  text : String
  searchFor : String → List Rect

/-- Page-editing operations the code can issue, in issue order. -/
inductive PdfOp where
  | addRedactAnnot (r : Rect) (fill : Nat × Nat × Nat)
  | applyRedactions
  | insertText (p : Point) (s : String) (fontsize : Nat) (color : Nat × Nat × Nat)
deriving DecidableEq

def whiteFill : Nat × Nat × Nat := (1, 1, 1)

def blackColor : Nat × Nat × Nat := (0, 0, 0)

def PdfOp.isRedactOp : PdfOp → Bool
  | .addRedactAnnot _ _ => true
  | _ => false

def PdfOp.isInsertOp : PdfOp → Bool
  | .insertText _ _ _ _ => true
  | _ => false

/-! ### Path and filename helpers -/

/-- `pdf_path[:-4] + '_new.pdf'` (Python slice drops the last four
characters; on strings of length ≤ 4 the slice is empty). -/
def newPath (p : String) : String :=
  String.mk (p.toList.take (p.toList.length - 4)) ++ "_new.pdf"

/-- Whether `needle` occurs at the head of `hay`. -/
def leadsWith : List Char → List Char → Bool
  | [], _ => true
  | _ :: _, [] => false
  | a :: as, b :: bs => a == b && leadsWith as bs

/-- Python `needle in hay` substring containment. -/
def pyIn (needle : List Char) : List Char → Bool
  | [] => leadsWith needle []
  | c :: rest => leadsWith needle (c :: rest) || pyIn needle rest

/-- Python `s.endswith(suf)`. -/
def pyEndsWith (s suf : List Char) : Bool :=
  s.drop (s.length - suf.length) == suf

/-- Python `s.lower()`, restricted to the ASCII range (Lean's
`Char.toLower`); the only case-folding the claims exercise is on the
ASCII extension `.pdf`/`.PDF`. -/
def pyLowerChars (s : List Char) : List Char := s.map Char.toLower

/-- The GUI walker's per-file filter:
`file.lower().endswith('.pdf') and self.keyword in file`. -/
def fileMatches (keyword file : String) : Bool :=
  pyEndsWith (pyLowerChars file.toList) ".pdf".toList &&
  pyIn keyword.toList file.toList

/-- `os.path.join(subdir, file)` in the POSIX normal case (no trailing
separator, relative second component). -/
def joinPath (subdir file : String) : String := subdir ++ "/" ++ file

/-! ### GUI variant: `PDFDateChangerThread.process_pdf` -/

/-- Observable outcome of one `process_pdf` call.  `removeOk` below
models whether the `os.remove` call would succeed; its failure is
swallowed by the bare `except` in the source. -/
structure GuiResult where
  chosenOldDate : Option String
  ops : List PdfOp
  saved : Option String
  closed : Bool
  removeAttempted : Bool
  originalRemoved : Bool

/-- Embedding of `PDFDateChangerThread.process_pdf` (main.py lines 44-68).
The save, close and optional delete happen outside the `if matches:`
block, hence unconditionally; only the page edits depend on the matches
and on `page.search_for`. -/
def process_pdf (page : Page) (pdf_path new_date : String)
    (delete_original removeOk : Bool) : GuiResult :=
  let matchList := pyFinditer page.text
  let edit : Option String × List PdfOp :=
    match matchList.getLast? with
    | none => (none, [])
    | some lm =>
      let old_date := lm.2
      match (page.searchFor old_date).getLast? with
      | none => (some old_date, [])
      | some rect =>
        (some old_date,
          [PdfOp.addRedactAnnot rect whiteFill, PdfOp.applyRedactions,
            PdfOp.insertText rect.tl new_date 12 blackColor])
  { chosenOldDate := edit.1
    ops := edit.2
    saved := some (newPath pdf_path)
    closed := true
    removeAttempted := delete_original
    originalRemoved := delete_original && removeOk }

/-! ### GUI variant: `PDFDateChangerThread.run` (batch driver) -/

/-- Observable outcome of one batch run. -/
structure BatchResult where
  processedFiles : List String
  progressValues : List Nat
  finalStatus : String

/-- The `pdf_files` list built by `run`'s `os.walk` loop; the walk itself
is abstracted as the list of `(subdir, filename)` pairs it yields. -/
def selectFiles (walk : List (String × String)) (keyword : String) : List String :=
  (walk.filter fun df => fileMatches keyword df.2).map fun df => joinPath df.1 df.2

/-! #### IEEE-754 binary64 model for the progress expression

The source computes `int((idx + 1) / total * 100)` with CPython
semantics: `/` on two ints is true division, producing the binary64
double nearest to the exact quotient (ties to even); `* 100` converts
100 exactly and returns the correctly rounded product; `int()` truncates
toward zero.  The model below implements round-to-nearest-even with a
53-bit significand and an unbounded exponent over exact `Nat`/`Int`
arithmetic; overflow and subnormals are unreachable for the magnitudes
involved (quotients in `(0, 1]` scaled by 100 for any feasible batch
size).  A positive double is represented as a significand/exponent pair
with value `sig * 2 ^ exp`. -/

/-- Fuel-driven `⌊log₂ n⌋` (0 for `n = 0`), structurally recursive so the
kernel can evaluate it. -/
def natLog2Go : Nat → Nat → Nat
  | 0, _ => 0
  | fuel + 1, n => if 2 ≤ n then natLog2Go fuel (n / 2) + 1 else 0

def natLog2 (n : Nat) : Nat := natLog2Go n n

/-- Decides `a / b ≥ 2 ^ e` over the exact fraction `a / b`. -/
def gePow2 (a b : Nat) : Int → Bool
  | Int.ofNat k => b * 2 ^ k ≤ a
  | Int.negSucc k => b ≤ a * 2 ^ (k + 1)

/-- `⌊log₂ (a / b)⌋` for `a, b ≥ 1`: the bit-length estimate is off by at
most one, fixed by a single comparison. -/
def ilog2Frac (a b : Nat) : Int :=
  let e0 : Int := (natLog2 a : Int) - (natLog2 b : Int)
  if gePow2 a b e0 then e0 else e0 - 1

/-- Round `n / d` to the nearest integer, ties to even. -/
def rdhe (n d : Nat) : Nat :=
  let q := n / d
  let r := n % d
  if 2 * r < d then q
  else if d < 2 * r then q + 1
  else if q % 2 = 0 then q else q + 1

/-- The binary64 double nearest to `a / b` (`a, b ≥ 1`), as
`(sig, exp)` with value `sig * 2 ^ exp`: scale the quotient into
`[2^52, 2^53)` and round its significand to nearest, ties to even.
Models CPython's `int.__truediv__`. -/
def divRound (a b : Nat) : Nat × Int :=
  let e := ilog2Frac a b
  let m :=
    match 52 - e with
    | Int.ofNat k => rdhe (a * 2 ^ k) b
    | Int.negSucc k => rdhe a (b * 2 ^ (k + 1))
  (m, e - 52)

/-- Round the integer `p` to a 53-bit significand: `(sig, shift)` with
value `sig * 2 ^ shift`.  Used for the exact product `sig * 100` of a
float-times-int multiplication. -/
def roundMantissa (p : Nat) : Nat × Nat :=
  let L := natLog2 p
  if L ≤ 52 then (p, 0)
  else (rdhe p (2 ^ (L - 52)), L - 52)

/-- `int()` truncation of the nonnegative value `m * 2 ^ e`. -/
def floorPos (m : Nat) : Int → Nat
  | Int.ofNat k => m * 2 ^ k
  | Int.negSucc k => m / 2 ^ (k + 1)

/-- `int((i) / total * 100)` under CPython binary64 semantics: correctly
rounded true division, correctly rounded product with the exactly
converted 100, truncation toward zero.  (The zero guards are unreachable
from `runBatch`, whose loop has `i = idx + 1 ≥ 1` and `total ≥ 1`.) -/
def pyProgress (i total : Nat) : Nat :=
  if i = 0 || total = 0 then 0
  else
    let md := divRound i total
    let mp := roundMantissa (md.1 * 100)
    floorPos mp.1 (md.2 + (mp.2 : Int))

/-- Embedding of `PDFDateChangerThread.run` (main.py lines 25-42).
Progress after file `idx` is `int((idx + 1) / total * 100)`, modelled by
`pyProgress` under IEEE-754 double semantics. -/
def runBatch (walk : List (String × String)) (keyword : String) : BatchResult :=
  let pdf_files := selectFiles walk keyword
  let total := pdf_files.length
  if total = 0 then
    { processedFiles := []
      progressValues := [0]
      finalStatus := "Файлы не найдены!" }
  else
    { processedFiles := pdf_files
      progressValues := (List.range total).map fun idx => pyProgress (idx + 1) total
      finalStatus := "Готово!" }

/-! ### CLI variant: `replace_date_in_pdf` and `main` -/

inductive CliError where
  | noDateFound
  | dateMismatch (found expected : String)
  | noVisualMatch
deriving DecidableEq

/-- Observable outcome of one `replace_date_in_pdf` call; `error`
records which `ERROR:` branch printed, `success` the returned boolean. -/
structure CliResult where
  foundDate : Option String
  ops : List PdfOp
  saved : Option String
  closed : Bool
  success : Bool
  error : Option CliError

/-- Embedding of `replace_date_in_pdf` (pdf_date_replacer.py lines 21-95),
covering its explicit control-flow branches. -/
def replace_date_in_pdf (page : Page) (pdf_path old_date new_date : String) :
    CliResult :=
  let matchList := pyFinditer page.text
  match matchList.getLast? with
  | none =>
    { foundDate := none, ops := [], saved := none, closed := true
      success := false, error := some CliError.noDateFound }
  | some lm =>
    let found_old_date := lm.2
    if found_old_date = old_date then
      match (page.searchFor old_date).getLast? with
      | none =>
        { foundDate := some found_old_date, ops := [], saved := none
          closed := true, success := false, error := some CliError.noVisualMatch }
      | some rect =>
        { foundDate := some found_old_date
          ops := [PdfOp.addRedactAnnot rect whiteFill, PdfOp.applyRedactions,
            PdfOp.insertText ⟨rect.tl.x, rect.br.y + 5⟩ new_date 12 blackColor]
          saved := some (newPath pdf_path)
          closed := true, success := true, error := none }
    else
      { foundDate := some found_old_date, ops := [], saved := none
        closed := true, success := false
        error := some (CliError.dateMismatch found_old_date old_date) }

/-- Observable outcome of the CLI `main` wrapper. -/
structure CliMainResult where
  exitCode : Nat
  removedOriginal : Bool
  warned : Bool

/-- Embedding of `main` (pdf_date_replacer.py lines 98-130): existence
check, call, best-effort deletion, exit code. -/
def cliMain (fileExists : Bool) (page : Page)
    (pdf_path old_date new_date : String)
    (delete_original removeOk : Bool) : CliMainResult :=
  if fileExists = false then
    { exitCode := 1, removedOriginal := false, warned := false }
  else
    let r := replace_date_in_pdf page pdf_path old_date new_date
    if r.success then
      if delete_original then
        if removeOk then
          { exitCode := 0, removedOriginal := true, warned := false }
        else
          { exitCode := 0, removedOriginal := false, warned := true }
      else
        { exitCode := 0, removedOriginal := false, warned := false }
    else
      { exitCode := 1, removedOriginal := false, warned := false }

/-- The returned observables of a full CLI call including its exception
handler: the returned success flag and saved path, and whether the
document was closed before the return. -/
structure CliExit where
  success : Bool
  saved : Option String
  closed : Bool

/-- Embedding of `replace_date_in_pdf` including its surrounding
`try ... except Exception` (pdf_date_replacer.py lines 26-95).  `raised`
abstracts whether some PyMuPDF call inside the `try` block raises after
`fitz.open` has succeeded (e.g. `doc[-1]`, `get_text`, `search_for`,
`apply_redactions` or `doc.save`): the `except Exception` handler
(lines 90-95) prints the error and returns `False, None` without
calling `doc.close()`.  When nothing raises, the call behaves as the
branch model `replace_date_in_pdf`, all of whose returns close first. -/
def replace_date_exit (page : Page) (pdf_path old_date new_date : String)
    (raised : Bool) : CliExit :=
  if raised then { success := false, saved := none, closed := false }
  else
    let r := replace_date_in_pdf page pdf_path old_date new_date
    { success := r.success, saved := r.saved, closed := r.closed }

/-! ### Concrete pages and walks for witnesses and counterexamples -/

/-- A page whose extracted text holds two date tokens; `search_for`
locates the later one at a single box. -/
def samplePage : Page :=
  { text := "Tarih: 01.03.2024, karar: 15.03.2024"
    searchFor := fun s =>
      if s = "15.03.2024" then [⟨100, 200, 160, 212⟩] else [] }

/-- A page whose later date token renders at two boxes. -/
def dupPage : Page :=
  { text := "01.03.2024 xx 15.03.2024"
    searchFor := fun s =>
      if s = "15.03.2024" then [⟨1, 2, 3, 4⟩, ⟨100, 200, 160, 212⟩] else [] }

/-- A page with no date token at all. -/
def noDatePage : Page :=
  { text := "no dates here"
    searchFor := fun _ => [] }

/-- A two-entry folder walk: one file matching the default keyword and
extension, one non-PDF file. -/
def demoWalk : List (String × String) :=
  [("root", "İDDİA_2024.pdf"), ("root", "notes.txt")]

/-- A folder walk yielding fifty matching files. -/
def halfCentWalk : List (String × String) :=
  (List.range 50).map fun i => ("d", "İDDİA" ++ toString i ++ ".pdf")

/-! ### Scan-order lemmas for `pyFinditer` -/

/-- Every match emitted by the scanner starts at or after the scanner's
current position. -/
theorem finditerGo_mem_le (cs : List Char) :
    ∀ pos skip m, m ∈ finditerGo cs pos skip → pos ≤ m.1 := by
  induction cs with
  | nil => intro pos skip m hm; simp [finditerGo] at hm
  | cons c rest ih =>
    intro pos skip m hm
    cases skip with
    | succ k =>
      simp only [finditerGo] at hm
      have := ih (pos + 1) k m hm
      omega
    | zero =>
      simp only [finditerGo] at hm
      cases hdm : dateMatchAt (c :: rest) with
      | some s =>
        rw [hdm] at hm
        rcases List.mem_cons.mp hm with rfl | hm'
        · exact le_refl _
        · have := ih (pos + 1) 9 m hm'
          omega
      | none =>
        rw [hdm] at hm
        have := ih (pos + 1) 0 m hm
        omega

/-- The matches are emitted in strictly increasing offset order. -/
theorem finditerGo_pairwise (cs : List Char) :
    ∀ pos skip, (finditerGo cs pos skip).Pairwise (fun a b => a.1 < b.1) := by
  induction cs with
  | nil => intro pos skip; simp [finditerGo]
  | cons c rest ih =>
    intro pos skip
    cases skip with
    | succ k => simp only [finditerGo]; exact ih (pos + 1) k
    | zero =>
      simp only [finditerGo]
      cases hdm : dateMatchAt (c :: rest) with
      | some s =>
        refine List.Pairwise.cons ?_ (ih (pos + 1) 9)
        intro b hb
        have := finditerGo_mem_le rest (pos + 1) 9 b hb
        simp only
        omega
      | none => exact ih (pos + 1) 0

/-- In a list sorted by strictly increasing first component, the last
element's first component bounds every element's. -/
theorem le_getLast?_of_pairwise :
    ∀ (l : List (Nat × String)) (lm : Nat × String),
      l.Pairwise (fun a b => a.1 < b.1) → l.getLast? = some lm →
      ∀ x ∈ l, x.1 ≤ lm.1 := by
  intro l
  induction l with
  | nil => intro lm _ hl; simp at hl
  | cons a t ih =>
    intro lm hp hl x hx
    cases t with
    | nil =>
      have ha : a = lm := by simpa using hl
      have hxa : x = a := by simpa using hx
      subst ha; subst hxa
      exact le_refl _
    | cons b t' =>
      rw [List.getLast?_cons_cons] at hl
      rcases List.mem_cons.mp hx with rfl | hx'
      · have hmem : lm ∈ b :: t' := List.mem_of_getLast?_eq_some hl
        have hrel := (List.pairwise_cons.mp hp).1 lm hmem
        omega
      · exact ih lm (List.pairwise_cons.mp hp).2 hl x hx'

/-! ### Claims -/

/-- C1: for every document whose last page's extracted text contains at
least one match of the date pattern, both the GUI `process_pdf` and the
CLI `replace_date_in_pdf` select as old date the match with the greatest
offset in the extracted text — the last match in document order. -/
theorem C1_last_match_selected (page : Page) (pdf_path new_date old_date : String)
    (delete_original removeOk : Bool) (lm : Nat × String)
    (hlast : (pyFinditer page.text).getLast? = some lm) :
    (process_pdf page pdf_path new_date delete_original removeOk).chosenOldDate =
      some lm.2 ∧
    (replace_date_in_pdf page pdf_path old_date new_date).foundDate = some lm.2 ∧
    ∀ m ∈ pyFinditer page.text, m.1 ≤ lm.1 := by
  refine ⟨?_, ?_, ?_⟩
  · simp only [process_pdf, hlast]
    cases hr : (page.searchFor lm.2).getLast? <;> simp [hr]
  · simp only [replace_date_in_pdf, hlast]
    by_cases hod : lm.2 = old_date
    · simp only [if_pos hod]
      cases hr : (page.searchFor old_date).getLast? <;> simp [hr]
    · simp [if_neg hod]
  · exact le_getLast?_of_pairwise (pyFinditer page.text) lm
      (finditerGo_pairwise page.text.toList 0 0) hlast

/-- C1 witness: the sample page's last match is `15.03.2024` at offset 26,
and both variants select it. -/
theorem C1_last_match_selected_witness :
    (pyFinditer samplePage.text).getLast? = some (26, "15.03.2024") ∧
    ((process_pdf samplePage "a.pdf" "20.03.2024" false false).chosenOldDate =
        some (26, "15.03.2024").2 ∧
      (replace_date_in_pdf samplePage "a.pdf" "15.03.2024" "20.03.2024").foundDate =
        some (26, "15.03.2024").2 ∧
      ∀ m ∈ pyFinditer samplePage.text, m.1 ≤ (26, "15.03.2024").1) :=
  ⟨by decide,
    C1_last_match_selected samplePage "a.pdf" "20.03.2024" "15.03.2024" false false
      (26, "15.03.2024") (by decide)⟩

/-- C2 counterexample: on a page with zero date-pattern matches, the GUI
variant still produces an output file (`doc_new.pdf`), so the claim that
both variants fail with no output file is false as stated. -/
theorem C2_counterexample :
    pyFinditer noDatePage.text = [] ∧
    (process_pdf noDatePage "doc.pdf" "01.01.2025" false false).saved =
      some "doc_new.pdf" := by
  constructor
  · decide
  · rfl

/-- C2 (amended): on a page with zero date-pattern matches, the CLI
variant fails with `NoDateFound`, performs no page edit and produces no
output file; the GUI variant performs no page edit and reports no error,
but still saves an output file at the `_new` path. -/
theorem C2_no_date_found (page : Page) (pdf_path old_date new_date : String)
    (delete_original removeOk : Bool)
    (hnone : pyFinditer page.text = []) :
    (replace_date_in_pdf page pdf_path old_date new_date).error =
      some CliError.noDateFound ∧
    (replace_date_in_pdf page pdf_path old_date new_date).saved = none ∧
    (replace_date_in_pdf page pdf_path old_date new_date).ops = [] ∧
    (replace_date_in_pdf page pdf_path old_date new_date).success = false ∧
    (process_pdf page pdf_path new_date delete_original removeOk).ops = [] ∧
    (process_pdf page pdf_path new_date delete_original removeOk).saved =
      some (newPath pdf_path) := by
  simp [replace_date_in_pdf, process_pdf, hnone]

/-- C2 witness: the amended claim at the concrete page with no dates. -/
theorem C2_no_date_found_witness :
    (replace_date_in_pdf noDatePage "d.pdf" "01.01.2024" "02.01.2024").error =
      some CliError.noDateFound ∧
    (replace_date_in_pdf noDatePage "d.pdf" "01.01.2024" "02.01.2024").saved = none ∧
    (replace_date_in_pdf noDatePage "d.pdf" "01.01.2024" "02.01.2024").ops = [] ∧
    (replace_date_in_pdf noDatePage "d.pdf" "01.01.2024" "02.01.2024").success = false ∧
    (process_pdf noDatePage "d.pdf" "02.01.2024" true true).ops = [] ∧
    (process_pdf noDatePage "d.pdf" "02.01.2024" true true).saved =
      some (newPath "d.pdf") :=
  C2_no_date_found noDatePage "d.pdf" "01.01.2024" "02.01.2024" true true (by decide)

/-- C3: in the CLI variant, when the supplied `old_date` differs from the
last date-pattern match on the last page, the procedure fails with a
`DateMismatch` error carrying found vs. expected, issues no page edit,
saves no output file, and the process exits with a non-zero code. -/
theorem C3_date_mismatch (page : Page) (pdf_path old_date new_date : String)
    (delete_original removeOk : Bool) (lm : Nat × String)
    (hlast : (pyFinditer page.text).getLast? = some lm)
    (hne : lm.2 ≠ old_date) :
    (replace_date_in_pdf page pdf_path old_date new_date).error =
      some (CliError.dateMismatch lm.2 old_date) ∧
    (replace_date_in_pdf page pdf_path old_date new_date).ops = [] ∧
    (replace_date_in_pdf page pdf_path old_date new_date).saved = none ∧
    (replace_date_in_pdf page pdf_path old_date new_date).success = false ∧
    (cliMain true page pdf_path old_date new_date delete_original removeOk).exitCode
      = 1 := by
  have hcall :
      replace_date_in_pdf page pdf_path old_date new_date =
        { foundDate := some lm.2, ops := [], saved := none, closed := true
          success := false
          error := some (CliError.dateMismatch lm.2 old_date) } := by
    simp [replace_date_in_pdf, hlast, hne]
  refine ⟨by rw [hcall], by rw [hcall], by rw [hcall], by rw [hcall], ?_⟩
  simp [cliMain, hcall]

/-- C3 witness: asking the CLI to replace `14.03.2024` when the page's
last date is `15.03.2024`. -/
theorem C3_date_mismatch_witness :
    (replace_date_in_pdf samplePage "a.pdf" "14.03.2024" "20.03.2024").error =
      some (CliError.dateMismatch (26, "15.03.2024").2 "14.03.2024") ∧
    (replace_date_in_pdf samplePage "a.pdf" "14.03.2024" "20.03.2024").ops = [] ∧
    (replace_date_in_pdf samplePage "a.pdf" "14.03.2024" "20.03.2024").saved = none ∧
    (replace_date_in_pdf samplePage "a.pdf" "14.03.2024" "20.03.2024").success
      = false ∧
    (cliMain true samplePage "a.pdf" "14.03.2024" "20.03.2024" true true).exitCode
      = 1 :=
  C3_date_mismatch samplePage "a.pdf" "14.03.2024" "20.03.2024" true true
    (26, "15.03.2024") (by decide) (by decide)

/-- C4 counterexample: `report.PDF` passes the case-insensitive extension
check, but the output path is `report_new.pdf` — the code appends the
literal lowercase `_new.pdf`, not the original extension `.PDF`. -/
theorem C4_counterexample :
    pyEndsWith (pyLowerChars ("report.PDF".toList)) (".pdf".toList) = true ∧
    newPath "report.PDF" = "report_new.pdf" ∧
    newPath "report.PDF" ≠ "report" ++ "_new" ++ ".PDF" := by
  refine ⟨by decide, by decide, by decide⟩

/-- C4 (amended): the output path is the input with its last four
characters dropped and the literal suffix `_new.pdf` appended; for inputs
ending in the lowercase extension `.pdf` this coincides with dropping the
extension and appending `_new` plus the original extension, but for an
upper-case extension the output's extension is lowercased. -/
theorem C4_output_path (stem : String) :
    newPath (stem ++ ".pdf") = stem ++ "_new" ++ ".pdf" := by
  refine String.ext ?_
  have hp : (".pdf" : String).data = ['.', 'p', 'd', 'f'] := rfl
  simp [newPath, String.toList, String.data_append, hp]

/-- C5: whenever a replacement is performed, the new date is inserted at
fontsize 12 in black; the GUI variant inserts at the chosen box's
top-left corner `(x0, y0)`, the CLI variant at five units below its
bottom-left corner `(x0, y1 + 5)`. -/
theorem C5_insert_position (page : Page) (pdf_path new_date old_date : String)
    (delete_original removeOk : Bool) (lm : Nat × String) (rect : Rect)
    (hlast : (pyFinditer page.text).getLast? = some lm)
    (hrect : (page.searchFor lm.2).getLast? = some rect)
    (hod : lm.2 = old_date) :
    (process_pdf page pdf_path new_date delete_original removeOk).ops =
      [PdfOp.addRedactAnnot rect whiteFill, PdfOp.applyRedactions,
        PdfOp.insertText ⟨rect.x0, rect.y0⟩ new_date 12 blackColor] ∧
    (replace_date_in_pdf page pdf_path old_date new_date).ops =
      [PdfOp.addRedactAnnot rect whiteFill, PdfOp.applyRedactions,
        PdfOp.insertText ⟨rect.x0, rect.y1 + 5⟩ new_date 12 blackColor] ∧
    blackColor = (0, 0, 0) := by
  subst hod
  refine ⟨?_, ?_, rfl⟩
  · simp [process_pdf, hlast, hrect, Rect.tl]
  · simp [replace_date_in_pdf, hlast, hrect, Rect.tl, Rect.br]

/-- C5 witness at the sample page, whose chosen box is
`(100, 200, 160, 212)`. -/
theorem C5_insert_position_witness :
    (process_pdf samplePage "a.pdf" "20.03.2024" false false).ops =
      [PdfOp.addRedactAnnot ⟨100, 200, 160, 212⟩ whiteFill, PdfOp.applyRedactions,
        PdfOp.insertText ⟨(100 : Int), (200 : Int)⟩ "20.03.2024" 12 blackColor] ∧
    (replace_date_in_pdf samplePage "a.pdf" "15.03.2024" "20.03.2024").ops =
      [PdfOp.addRedactAnnot ⟨100, 200, 160, 212⟩ whiteFill, PdfOp.applyRedactions,
        PdfOp.insertText ⟨(100 : Int), (212 : Int) + 5⟩ "20.03.2024" 12 blackColor] ∧
    blackColor = (0, 0, 0) :=
  C5_insert_position samplePage "a.pdf" "20.03.2024" "15.03.2024" false false
    (26, "15.03.2024") ⟨100, 200, 160, 212⟩ (by decide) (by decide) rfl

/-- C6: per processed document exactly one date-token value is chosen as
the old date, and when the page is edited exactly one rectangle — the
last box returned by the visual search — is redacted and receives the
replacement text; no other rectangle from the search is redacted, in
either variant. -/
theorem C6_single_edit_site (page : Page) (pdf_path new_date old_date : String)
    (delete_original removeOk : Bool) (lm : Nat × String) (rect : Rect)
    (hlast : (pyFinditer page.text).getLast? = some lm)
    (hrect : (page.searchFor lm.2).getLast? = some rect)
    (hod : lm.2 = old_date) :
    (process_pdf page pdf_path new_date delete_original removeOk).chosenOldDate =
      some lm.2 ∧
    (replace_date_in_pdf page pdf_path old_date new_date).foundDate = some lm.2 ∧
    ((process_pdf page pdf_path new_date delete_original removeOk).ops.filter
        PdfOp.isRedactOp) = [PdfOp.addRedactAnnot rect whiteFill] ∧
    ((process_pdf page pdf_path new_date delete_original removeOk).ops.filter
        PdfOp.isInsertOp).length = 1 ∧
    ((replace_date_in_pdf page pdf_path old_date new_date).ops.filter
        PdfOp.isRedactOp) = [PdfOp.addRedactAnnot rect whiteFill] ∧
    ((replace_date_in_pdf page pdf_path old_date new_date).ops.filter
        PdfOp.isInsertOp).length = 1 ∧
    (∀ r' ∈ page.searchFor lm.2, r' ≠ rect →
      (PdfOp.addRedactAnnot r' whiteFill ∉
          (process_pdf page pdf_path new_date delete_original removeOk).ops ∧
        PdfOp.addRedactAnnot r' whiteFill ∉
          (replace_date_in_pdf page pdf_path old_date new_date).ops)) := by
  subst hod
  have hg : (process_pdf page pdf_path new_date delete_original removeOk).ops =
      [PdfOp.addRedactAnnot rect whiteFill, PdfOp.applyRedactions,
        PdfOp.insertText ⟨rect.x0, rect.y0⟩ new_date 12 blackColor] := by
    simp [process_pdf, hlast, hrect, Rect.tl]
  have hc : (replace_date_in_pdf page pdf_path lm.2 new_date).ops =
      [PdfOp.addRedactAnnot rect whiteFill, PdfOp.applyRedactions,
        PdfOp.insertText ⟨rect.x0, rect.y1 + 5⟩ new_date 12 blackColor] := by
    simp [replace_date_in_pdf, hlast, hrect, Rect.tl, Rect.br]
  refine ⟨?_, ?_, ?_, ?_, ?_, ?_, ?_⟩
  · simp [process_pdf, hlast, hrect]
  · simp [replace_date_in_pdf, hlast, hrect]
  · rw [hg]; rfl
  · rw [hg]; rfl
  · rw [hc]; rfl
  · rw [hc]; rfl
  · intro r' _ hne
    rw [hg, hc]
    constructor <;> simp [PdfOp.addRedactAnnot.injEq, hne]

/-- C6 witness at a page whose date renders at two boxes: only the later
box `(100, 200, 160, 212)` is redacted; the earlier box `(1, 2, 3, 4)` is
untouched in both variants. -/
theorem C6_single_edit_site_witness :
    (process_pdf dupPage "a.pdf" "20.03.2024" false false).chosenOldDate =
      some (14, "15.03.2024").2 ∧
    (replace_date_in_pdf dupPage "a.pdf" "15.03.2024" "20.03.2024").foundDate =
      some (14, "15.03.2024").2 ∧
    ((process_pdf dupPage "a.pdf" "20.03.2024" false false).ops.filter
        PdfOp.isRedactOp) = [PdfOp.addRedactAnnot ⟨100, 200, 160, 212⟩ whiteFill] ∧
    ((process_pdf dupPage "a.pdf" "20.03.2024" false false).ops.filter
        PdfOp.isInsertOp).length = 1 ∧
    ((replace_date_in_pdf dupPage "a.pdf" "15.03.2024" "20.03.2024").ops.filter
        PdfOp.isRedactOp) = [PdfOp.addRedactAnnot ⟨100, 200, 160, 212⟩ whiteFill] ∧
    ((replace_date_in_pdf dupPage "a.pdf" "15.03.2024" "20.03.2024").ops.filter
        PdfOp.isInsertOp).length = 1 ∧
    (∀ r' ∈ dupPage.searchFor (14, "15.03.2024").2, r' ≠ ⟨100, 200, 160, 212⟩ →
      (PdfOp.addRedactAnnot r' whiteFill ∉
          (process_pdf dupPage "a.pdf" "20.03.2024" false false).ops ∧
        PdfOp.addRedactAnnot r' whiteFill ∉
          (replace_date_in_pdf dupPage "a.pdf" "15.03.2024" "20.03.2024").ops)) :=
  C6_single_edit_site dupPage "a.pdf" "20.03.2024" "15.03.2024" false false
    (14, "15.03.2024") ⟨100, 200, 160, 212⟩ (by decide) (by decide) rfl

/-- Every explicit branch return of `replace_date_in_pdf` closes the
document first. -/
theorem replace_date_in_pdf_closed (page : Page)
    (pdf_path old_date new_date : String) :
    (replace_date_in_pdf page pdf_path old_date new_date).closed = true := by
  cases hl : (pyFinditer page.text).getLast? with
  | none => simp [replace_date_in_pdf, hl]
  | some lm =>
    simp only [replace_date_in_pdf, hl]
    split
    · cases hr : (page.searchFor old_date).getLast? <;> simp [hr]
    · rfl

/-- C7 counterexample: when a library call raises after the document was
opened (`raised = true`), the CLI procedure takes its `except Exception`
exit path and returns `False, None` without the document having been
closed — an exit path after open on which the document is not closed. -/
theorem C7_counterexample :
    (replace_date_exit samplePage "a.pdf" "15.03.2024" "20.03.2024" true).closed =
      false ∧
    (replace_date_exit samplePage "a.pdf" "15.03.2024" "20.03.2024" true).success =
      false :=
  ⟨rfl, rfl⟩

/-- C7 (amended): the GUI variant closes the document on its exit path,
and the CLI variant closes it on every regular (no-exception) exit path;
but on the CLI's `except Exception` exit path — taken when a library
call raises after the document was opened — the procedure returns
without closing the document. -/
theorem C7_closed_except_exception (page : Page)
    (pdf_path new_date old_date : String) (delete_original removeOk : Bool) :
    (process_pdf page pdf_path new_date delete_original removeOk).closed = true ∧
    (replace_date_exit page pdf_path old_date new_date false).closed = true ∧
    (replace_date_exit page pdf_path old_date new_date true).closed = false := by
  refine ⟨rfl, ?_, rfl⟩
  simp [replace_date_exit, replace_date_in_pdf_closed]

/-- Membership in the batch driver's candidate list, unfolded. -/
theorem mem_selectFiles (walk : List (String × String)) (keyword p : String) :
    p ∈ selectFiles walk keyword ↔
      ∃ df, df ∈ walk ∧ fileMatches keyword df.2 = true ∧ p = joinPath df.1 df.2 := by
  simp only [selectFiles, List.mem_map, List.mem_filter]
  constructor
  · rintro ⟨df, ⟨hw, hm⟩, hj⟩
    exact ⟨df, hw, hm, hj.symm⟩
  · rintro ⟨df, hw, hm, hj⟩
    exact ⟨df, ⟨hw, hm⟩, hj.symm⟩

/-- The batch driver processes exactly its candidate list. -/
theorem runBatch_processedFiles (walk : List (String × String)) (keyword : String) :
    (runBatch walk keyword).processedFiles = selectFiles walk keyword := by
  simp only [runBatch]
  split
  next hz => exact (List.length_eq_zero.mp hz).symm
  next => rfl

/-- C8 counterexample: on a batch of fifty matching files the driver
reports 57 after the 29th file, where the integer percentage of files
processed is `29 * 100 / 50 = 58` — the float expression
`int(29 / 50 * 100)` truncates to 57, so progress is not always the
integer percentage. -/
theorem C8_counterexample :
    (selectFiles halfCentWalk "İDDİA").length = 50 ∧
    (runBatch halfCentWalk "İDDİA").progressValues[28]? = some 57 ∧
    (runBatch halfCentWalk "İDDİA").progressValues[28]? ≠
      some (29 * 100 / 50) := by
  refine ⟨by decide, by decide, by decide⟩

/-- C8 (amended): the batch driver processes exactly the walked files
whose name ends in `.pdf` case-insensitively and contains the keyword
case-sensitively; with no matching file it terminates in the
"no files found" status, distinct from the "done" status, and otherwise
terminates in "done" after reporting, following each file,
`int((idx + 1) / total * 100)` evaluated in IEEE-754 double-precision
arithmetic — usually the integer percentage of files processed, but one
below it where the rounded quotient falls short (e.g. 57 instead of 58
after the 29th of 50 files). -/
theorem C8_batch_driver (walk : List (String × String)) (keyword : String) :
    (∀ p, p ∈ (runBatch walk keyword).processedFiles ↔
      ∃ df, df ∈ walk ∧ fileMatches keyword df.2 = true ∧
        p = joinPath df.1 df.2) ∧
    (selectFiles walk keyword = [] →
      (runBatch walk keyword).finalStatus = "Файлы не найдены!" ∧
      (runBatch walk keyword).progressValues = [0] ∧
      (runBatch walk keyword).processedFiles = []) ∧
    (selectFiles walk keyword ≠ [] →
      (runBatch walk keyword).finalStatus = "Готово!" ∧
      (runBatch walk keyword).progressValues =
        (List.range (selectFiles walk keyword).length).map
          fun idx => pyProgress (idx + 1) (selectFiles walk keyword).length) ∧
    ("Файлы не найдены!" : String) ≠ "Готово!" := by
  refine ⟨?_, ?_, ?_, by decide⟩
  · intro p
    rw [runBatch_processedFiles]
    exact mem_selectFiles walk keyword p
  · intro hz
    have hz' : (selectFiles walk keyword).length = 0 := by rw [hz]; rfl
    refine ⟨?_, ?_, ?_⟩ <;> simp [runBatch, hz']
  · intro hnz
    have hz' : ¬(selectFiles walk keyword).length = 0 := by
      simpa [List.length_eq_zero] using hnz
    constructor <;> simp [runBatch, hz']

/-- C8 witness: a walk with one matching file ends in "done"; an empty
walk ends in "no files found". -/
theorem C8_batch_driver_witness :
    (runBatch demoWalk "İDDİA").finalStatus = "Готово!" ∧
    (runBatch ([] : List (String × String)) "İDDİA").finalStatus =
      "Файлы не найдены!" := by
  have h1 := C8_batch_driver demoWalk "İDDİA"
  have h2 := C8_batch_driver ([] : List (String × String)) "İDDİA"
  exact ⟨(h1.2.2.1 (by decide)).1, (h2.2.1 (by decide)).1⟩

/-- C9: with the delete flag unset neither variant touches the original;
with the flag set, a successful run whose deletion succeeds leaves the
original removed; a failing deletion never changes the verdict — the CLI
still exits 0 (with a warning) and the GUI result apart from the removal
outcome is unchanged. -/
theorem C9_deletion_policy (page : Page) (pdf_path old_date new_date : String)
    (hsucc : (replace_date_in_pdf page pdf_path old_date new_date).success = true) :
    (process_pdf page pdf_path new_date false true).removeAttempted = false ∧
    (process_pdf page pdf_path new_date false true).originalRemoved = false ∧
    (cliMain true page pdf_path old_date new_date false true).removedOriginal =
      false ∧
    (process_pdf page pdf_path new_date true true).originalRemoved = true ∧
    (cliMain true page pdf_path old_date new_date true true).removedOriginal =
      true ∧
    (cliMain true page pdf_path old_date new_date true false).exitCode = 0 ∧
    (cliMain true page pdf_path old_date new_date true false).warned = true ∧
    (process_pdf page pdf_path new_date true false).saved =
      (process_pdf page pdf_path new_date true true).saved ∧
    (process_pdf page pdf_path new_date true false).ops =
      (process_pdf page pdf_path new_date true true).ops := by
  refine ⟨rfl, rfl, ?_, rfl, ?_, ?_, ?_, rfl, rfl⟩
  all_goals simp [cliMain, hsucc]

/-- C9 witness at the sample page, where the CLI replacement succeeds. -/
theorem C9_deletion_policy_witness :
    (process_pdf samplePage "a.pdf" "20.03.2024" false true).removeAttempted =
      false ∧
    (process_pdf samplePage "a.pdf" "20.03.2024" false true).originalRemoved =
      false ∧
    (cliMain true samplePage "a.pdf" "15.03.2024" "20.03.2024" false
        true).removedOriginal = false ∧
    (process_pdf samplePage "a.pdf" "20.03.2024" true true).originalRemoved =
      true ∧
    (cliMain true samplePage "a.pdf" "15.03.2024" "20.03.2024" true
        true).removedOriginal = true ∧
    (cliMain true samplePage "a.pdf" "15.03.2024" "20.03.2024" true
        false).exitCode = 0 ∧
    (cliMain true samplePage "a.pdf" "15.03.2024" "20.03.2024" true
        false).warned = true ∧
    (process_pdf samplePage "a.pdf" "20.03.2024" true false).saved =
      (process_pdf samplePage "a.pdf" "20.03.2024" true true).saved ∧
    (process_pdf samplePage "a.pdf" "20.03.2024" true false).ops =
      (process_pdf samplePage "a.pdf" "20.03.2024" true true).ops :=
  C9_deletion_policy samplePage "a.pdf" "15.03.2024" "20.03.2024" (by decide)

/-- C10: for every document the GUI variant opens, `process_pdf` saves an
output file at the `_new` path unconditionally and attempts deletion of
the original exactly when the flag is set — even when no date token was
found on the last page, i.e. even when no page edit was performed. -/
theorem C10_gui_unconditional_save (page : Page) (pdf_path new_date : String)
    (delete_original removeOk : Bool) :
    (process_pdf page pdf_path new_date delete_original removeOk).saved =
      some (newPath pdf_path) ∧
    (process_pdf page pdf_path new_date delete_original removeOk).removeAttempted =
      delete_original ∧
    (process_pdf page pdf_path new_date delete_original removeOk).originalRemoved =
      (delete_original && removeOk) ∧
    (pyFinditer page.text = [] →
      (process_pdf page pdf_path new_date delete_original removeOk).ops = []) := by
  refine ⟨rfl, rfl, rfl, fun hn => ?_⟩
  simp [process_pdf, hn]

/-- C10 witness: on the dateless page with the delete flag set, the GUI
variant performs no edit yet saves `scan_new.pdf` and removes the
original. -/
theorem C10_gui_unconditional_save_witness :
    (process_pdf noDatePage "scan.pdf" "02.01.2024" true true).saved =
      some "scan_new.pdf" ∧
    (process_pdf noDatePage "scan.pdf" "02.01.2024" true true).originalRemoved =
      true ∧
    (process_pdf noDatePage "scan.pdf" "02.01.2024" true true).ops = [] := by
  have h := C10_gui_unconditional_save noDatePage "scan.pdf" "02.01.2024" true true
  exact ⟨h.1.trans (by decide), h.2.2.1, h.2.2.2 (by decide)⟩

end NominoDesktop
